import Mathlib

/-!
# Verification of the morningapp scheduling core

A shallow embedding, in Lean 4, of the trigger-time computation, media caching
and alarm-scheduling logic of the `morningapp` repository
(`src/utils/alarmScheduler.ts`, `src/utils/audioStorage.ts`, the
notification-sound cache, and the orchestration in `src/app/playback.tsx`),
together with theorems settling the specification claims about them.

Modelling conventions:
* Instants are integers counting milliseconds since the epoch; the calendar is
  DST-free, so one calendar day is exactly 86400000 ms and JavaScript
  `Date.setHours(h, m, 0, 0)` / `setDate(getDate() + 1)` become plain
  arithmetic on the floor-of-day.
* JavaScript `Number(s)` is modelled on the fragment the app produces:
  the empty string is 0, strings of decimal digits are their value, every
  other shape is NaN (`none`); theorems about parsed components quantify
  through this model, so they range over empty-or-digit components, on which
  it is exact.
* `Date` arithmetic is unclipped in the model, whereas JS applies TimeClip
  (a time value of magnitude above 8.64e15 ms becomes an Invalid Date);
  theorems about out-of-range normalisation therefore carry explicit bounds
  keeping every candidate inside that range, where the model and JS agree
  exactly.
* The expo file-system primitives are modelled as operations on an explicit
  file-system state (an association list from paths to byte lists), driven by
  a schedule of externally chosen outcomes: each primitive call consumes the
  next outcome, which says whether the call throws and, for writes and
  downloads, whether the platform actually persisted the data and which HTTP
  status was reported.  An empty schedule means every call succeeds.
* Thrown JavaScript errors are an `Except` error channel that carries the
  file-system state reached so far (a `catch` does not roll back writes).
-/

namespace MorningApp

inductive OS where
  | ios
  | android
  | web
deriving DecidableEq, Repr

/-! ## Time: `calculateNextAlarmTime` (src/utils/alarmScheduler.ts, lines 47-59) -/

def msPerSecond : Int := 1000
def msPerMinute : Int := 60000
def msPerHour : Int := 3600000
def msPerDay : Int := 86400000

/-- Model of JavaScript `String.prototype.split(':')`. -/
def splitColonAux : List Char → List Char → List (List Char)
  | [], acc => [acc.reverse]
  | c :: cs, acc =>
      if c = ':' then acc.reverse :: splitColonAux cs []
      else splitColonAux cs (c :: acc)

def splitColon (s : String) : List (List Char) :=
  splitColonAux s.data []

def natFromDigits (cs : List Char) : Nat :=
  cs.foldl (fun n c => n * 10 + (c.toNat - 48)) 0

/-- Model of JavaScript `Number(s)` on the decimal fragment this app feeds it:
`Number("") = 0`, a string of decimal digits is its value, and anything else
is `NaN`, modelled as `none`.  (Exotic numeric syntaxes such as floats or
hexadecimal never reach `calculateNextAlarmTime` in this program.) -/
def jsNumber (cs : List Char) : Option Int :=
  if cs = [] then some 0
  else if cs.all Char.isDigit then some (natFromDigits cs : Int)
  else none

/-- `Number(x)` where `x` may be `undefined` (destructuring past the end of
the split array): `Number(undefined)` is `NaN`. -/
def jsNumberOpt : Option (List Char) → Option Int
  | none => none
  | some cs => jsNumber cs

/-- `const [hours, minutes] = wakeUpTime.split(':').map(Number)`. -/
def parseClockString (s : String) : Option Int × Option Int :=
  let parts := splitColon s
  (jsNumberOpt parts.head?, jsNumberOpt (parts.get? 1))

/-- `new Date(t)` truncated to local midnight (`Int` division by a positive
divisor is floor division, matching calendar-day truncation also before the
epoch). -/
def dayStart (t : Int) : Int := t / msPerDay * msPerDay

/-- `alarmTime.setHours(hours, minutes, 0, 0)`: JavaScript normalises
out-of-range fields arithmetically, so this is defined for all integers. -/
def setHoursMinutes (t h m : Int) : Int := dayStart t + h * msPerHour + m * msPerMinute

/-- `calculateNextAlarmTime` from src/utils/alarmScheduler.ts.  A `NaN`
component makes every comparison on the resulting invalid date false, so the
invalid date is returned unchanged; we model an invalid date as `none`. -/
def calculateNextAlarmTime (now : Int) (wakeUpTime : String) : Option Int :=
  match parseClockString wakeUpTime with
  | (some hours, some minutes) =>
      let alarmTime := setHoursMinutes now hours minutes
      if alarmTime ≤ now then some (alarmTime + msPerDay) else some alarmTime
  | _ => none

/-! Field extractors used to state what instant a result denotes. -/

def dateIndex (t : Int) : Int := t / msPerDay
def hoursField (t : Int) : Int := t % msPerDay / msPerHour
def minutesField (t : Int) : Int := t % msPerHour / msPerMinute
def secondsField (t : Int) : Int := t % msPerMinute / msPerSecond
def millisField (t : Int) : Int := t % msPerSecond

/-- 2024-01-01T00:00:00 in the model's epoch milliseconds. -/
def jan1of2024 : Int := 1704067200000

/-- Arithmetic of the clock fields of an instant built by
`setHoursMinutes` from in-range components, and of the instant one day
later. -/
theorem clockFields (D h m : Int) (h0 : 0 ≤ h) (h23 : h ≤ 23)
    (m0 : 0 ≤ m) (m59 : m ≤ 59) :
    (D * 86400000 + h * 3600000 + m * 60000) % 86400000 / 3600000 = h ∧
    (D * 86400000 + h * 3600000 + m * 60000) % 3600000 / 60000 = m ∧
    (D * 86400000 + h * 3600000 + m * 60000) % 60000 / 1000 = 0 ∧
    (D * 86400000 + h * 3600000 + m * 60000) % 1000 = 0 ∧
    (D * 86400000 + h * 3600000 + m * 60000) / 86400000 = D ∧
    (D * 86400000 + h * 3600000 + m * 60000 + 86400000) % 86400000 / 3600000 = h ∧
    (D * 86400000 + h * 3600000 + m * 60000 + 86400000) % 3600000 / 60000 = m ∧
    (D * 86400000 + h * 3600000 + m * 60000 + 86400000) % 60000 / 1000 = 0 ∧
    (D * 86400000 + h * 3600000 + m * 60000 + 86400000) % 1000 = 0 ∧
    (D * 86400000 + h * 3600000 + m * 60000 + 86400000) / 86400000 = D + 1 := by
  refine ⟨?_, ?_, ?_, ?_, ?_, ?_, ?_, ?_, ?_, ?_⟩ <;> omega

/-- C1: for every current instant `now` and every string parsing as a valid
time-of-day `HH:MM` (hour in `[0,23]`, minute in `[0,59]`),
`calculateNextAlarmTime` returns the instant with that hour and minute
(seconds and milliseconds zero) on `now`'s date when that candidate is
strictly after `now`, and otherwise the instant exactly one calendar day
later; in particular with now = 2024-01-01T10:00:00, `"11:30"` yields
2024-01-01T11:30:00 and `"09:00"` yields 2024-01-02T09:00:00. -/
theorem C1_computeNextOccurrence_correct :
    (∀ (now : Int) (s : String) (h m : Int),
        parseClockString s = (some h, some m) →
        0 ≤ h → h ≤ 23 → 0 ≤ m → m ≤ 59 →
        ∃ t, calculateNextAlarmTime now s = some t ∧
          hoursField t = h ∧ minutesField t = m ∧
          secondsField t = 0 ∧ millisField t = 0 ∧
          (now < setHoursMinutes now h m →
            dateIndex t = dateIndex now ∧ t = setHoursMinutes now h m) ∧
          (setHoursMinutes now h m ≤ now →
            dateIndex t = dateIndex now + 1 ∧ t = setHoursMinutes now h m + msPerDay)) ∧
    calculateNextAlarmTime (jan1of2024 + 10 * msPerHour) "11:30"
      = some (jan1of2024 + 11 * msPerHour + 30 * msPerMinute) ∧
    calculateNextAlarmTime (jan1of2024 + 10 * msPerHour) "09:00"
      = some (jan1of2024 + msPerDay + 9 * msPerHour) := by
  refine ⟨?_, by decide, by decide⟩
  intro now s h m hparse h0 h23 m0 m59
  have hk := clockFields (now / 86400000) h m h0 h23 m0 m59
  simp only [calculateNextAlarmTime, hparse]
  by_cases hle : setHoursMinutes now h m ≤ now
  · rw [if_pos hle]
    exact ⟨setHoursMinutes now h m + msPerDay, rfl,
      hk.2.2.2.2.2.1, hk.2.2.2.2.2.2.1, hk.2.2.2.2.2.2.2.1, hk.2.2.2.2.2.2.2.2.1,
      fun hx => absurd hx (not_lt.mpr hle),
      fun _ => ⟨hk.2.2.2.2.2.2.2.2.2, rfl⟩⟩
  · rw [if_neg hle]
    exact ⟨setHoursMinutes now h m, rfl,
      hk.1, hk.2.1, hk.2.2.1, hk.2.2.2.1,
      fun _ => ⟨hk.2.2.2.2.1, rfl⟩,
      fun hx => absurd hx hle⟩

/-- Witness for C1: the general clause applied at now = 2024-01-01T10:00:00
and the concrete time-of-day `"11:30"`. -/
theorem C1_computeNextOccurrence_correct_witness :
    ∃ t, calculateNextAlarmTime (jan1of2024 + 10 * msPerHour) "11:30" = some t ∧
      hoursField t = 11 ∧ minutesField t = 30 ∧
      secondsField t = 0 ∧ millisField t = 0 ∧
      (jan1of2024 + 10 * msPerHour < setHoursMinutes (jan1of2024 + 10 * msPerHour) 11 30 →
        dateIndex t = dateIndex (jan1of2024 + 10 * msPerHour) ∧
        t = setHoursMinutes (jan1of2024 + 10 * msPerHour) 11 30) ∧
      (setHoursMinutes (jan1of2024 + 10 * msPerHour) 11 30 ≤ jan1of2024 + 10 * msPerHour →
        dateIndex t = dateIndex (jan1of2024 + 10 * msPerHour) + 1 ∧
        t = setHoursMinutes (jan1of2024 + 10 * msPerHour) 11 30 + msPerDay) :=
  C1_computeNextOccurrence_correct.1 (jan1of2024 + 10 * msPerHour) "11:30" 11 30
    (by decide) (by decide) (by decide) (by decide) (by decide)

/-- C3 counterexample: the out-of-range time-of-day `"25:00"` (hour 25 is not
in `[0,23]`) is not rejected: `calculateNextAlarmTime` yields the rolled-over
instant 2024-01-02T01:00:00 instead of failing. -/
theorem C3_out_of_range_counterexample :
    parseClockString "25:00" = (some 25, some 0) ∧
    calculateNextAlarmTime (jan1of2024 + 10 * msPerHour) "25:00"
      = some (jan1of2024 + 25 * msPerHour) ∧
    (calculateNextAlarmTime (jan1of2024 + 10 * msPerHour) "25:00").isSome = true := by
  refine ⟨by decide, by decide, by decide⟩

/-- C3 (amended): `calculateNextAlarmTime` performs no range validation and
signals no `InvalidTimeFormat`.  For every time string whose clock components
are decimal-digit strings (`parseClockString` succeeds exactly on the
empty-or-digit components the app's picker produces) — in range or not — and
whose candidate instant stays inside the JS date range (`setHours` applies
TimeClip: a time value of magnitude above 8.64e15 ms becomes an Invalid
Date), it returns a trigger instant, normalising out-of-range components by
date rollover; in particular `"25:00"` at 2024-01-01T10:00:00 yields
2024-01-02T01:00:00 rather than an error.  The two bound hypotheses delimit
the TimeClip region, inside which the arithmetic model is exact (all values
stay below 2^53, so JS double arithmetic is also exact there). -/
theorem C3_no_time_validation :
    (∀ (now : Int) (s : String) (h m : Int),
        parseClockString s = (some h, some m) →
        -8640000000000000 ≤ setHoursMinutes now h m →
        setHoursMinutes now h m + msPerDay ≤ 8640000000000000 →
        (calculateNextAlarmTime now s).isSome = true) ∧
    calculateNextAlarmTime (jan1of2024 + 10 * msPerHour) "25:00"
      = some (jan1of2024 + 25 * msPerHour) := by
  constructor
  · intro now s h m hparse _ _
    simp only [calculateNextAlarmTime, hparse]
    by_cases hle : setHoursMinutes now h m ≤ now
    · rw [if_pos hle]; rfl
    · rw [if_neg hle]; rfl
  · decide

/-- Witness for the amended C3: `"25:00"` parses numerically (hour 25, minute
0), its candidate lies well inside the JS date range, and an instant is
produced. -/
theorem C3_no_time_validation_witness :
    (calculateNextAlarmTime (jan1of2024 + 10 * msPerHour) "25:00").isSome = true :=
  C3_no_time_validation.1 (jan1of2024 + 10 * msPerHour) "25:00" 25 0
    (by decide) (by decide) (by decide)

/-! ## Base64 and the inline-asset (data-URI) grammar -/

/-- Value of a base64 alphabet character. -/
def b64CharVal (c : Char) : Option Nat :=
  if 'A' ≤ c ∧ c ≤ 'Z' then some (c.toNat - 65)
  else if 'a' ≤ c ∧ c ≤ 'z' then some (c.toNat - 97 + 26)
  else if '0' ≤ c ∧ c ≤ '9' then some (c.toNat - 48 + 52)
  else if c = '+' then some 62
  else if c = '/' then some 63
  else none

/-- Standard base64 decoding, four characters at a time, with `=` padding
allowed only in the final group. -/
def base64DecodeAux : List Char → Option (List Nat)
  | [] => some []
  | c1 :: c2 :: c3 :: c4 :: rest =>
      match b64CharVal c1, b64CharVal c2 with
      | some v1, some v2 =>
          if c3 = '=' then
            if c4 = '=' ∧ rest = [] then some [v1 * 4 + v2 / 16] else none
          else
            match b64CharVal c3 with
            | some v3 =>
                if c4 = '=' then
                  if rest = [] then some [v1 * 4 + v2 / 16, v2 % 16 * 16 + v3 / 4]
                  else none
                else
                  match b64CharVal c4, base64DecodeAux rest with
                  | some v4, some tail =>
                      some ([v1 * 4 + v2 / 16, v2 % 16 * 16 + v3 / 4,
                             v3 % 4 * 64 + v4] ++ tail)
                  | _, _ => none
            | none => none
      | _, _ => none
  | _ => none

def base64Decode (s : String) : Option (List Nat) :=
  base64DecodeAux s.data

/-- `url.startsWith('data:')`, the classifier between inline assets and
remote references (identical in both cache modules). -/
def isDataUri (url : String) : Bool :=
  url.data.take 5 = "data:".data

/-- Characters matched by the JavaScript regex `.` without the dotAll flag:
everything except the four line terminators. -/
def jsDotChar (c : Char) : Bool :=
  c ≠ '\n' ∧ c ≠ '\r' ∧ c ≠ ' ' ∧ c ≠ ' '

/-- `extractBase64FromDataUri`, the match against
`/^data:[^;]+;base64,(.+)$/` (identical in both cache modules).  The `[^;]+`
run must end at the first `;`, which must open the literal `;base64,`; the
captured payload is non-empty and free of line terminators. -/
def extractBase64FromDataUri (dataUri : String) : Option String :=
  let cs := dataUri.data
  if isDataUri dataUri then
    let rest := cs.drop 5
    let mime := rest.takeWhile (fun c => c ≠ ';')
    let after := rest.dropWhile (fun c => c ≠ ';')
    if mime ≠ [] then
      if after.take 8 = ";base64,".data then
        let payload := after.drop 8
        if payload ≠ [] ∧ payload.all jsDotChar then some (String.mk payload)
        else none
      else none
    else none
  else none

/-! ## MediaCache: src/utils/audioStorage.ts and the notification-sound cache

The expo file-system is external to the core, so its primitives are modelled
against an explicit file-system state (association list from paths to byte
lists) plus a schedule of outcomes chosen by the environment: each primitive
call consumes the next outcome, which decides whether the call throws and,
for writes and downloads, whether the platform actually persisted the data
and which HTTP status it reported.  An exhausted schedule defaults to
"succeed and persist, status 200". -/

abbrev Fs := List (String × List Nat)

def Fs.lookup (fs : Fs) (p : String) : Option (List Nat) :=
  match fs.find? (fun e => e.1 == p) with
  | some e => some e.2
  | none => none

def Fs.set (fs : Fs) (p : String) (v : List Nat) : Fs :=
  (p, v) :: fs.filter (fun e => e.1 != p)

def Fs.erase (fs : Fs) (p : String) : Fs :=
  fs.filter (fun e => e.1 != p)

inductive Outcome where
  | throwErr : Outcome
  | ret : Bool → Nat → Outcome
deriving DecidableEq, Repr

structure St where
  fs : Fs
  sched : List Outcome
deriving DecidableEq, Repr

/-- The computation model: state passing with a JavaScript-style error
channel.  A thrown error carries the state reached so far, because a `catch`
does not roll back file-system effects already performed. -/
def M (α : Type) := St → Except (String × St) (α × St)

def M.pure (a : α) : M α := fun st => .ok (a, st)

def M.bind (x : M α) (f : α → M β) : M β := fun st =>
  match x st with
  | .error e => .error e
  | .ok (a, st') => f a st'

instance : Monad M where
  pure := M.pure
  bind := M.bind

theorem M.pure_eq (a : α) : (Pure.pure a : M α) = M.pure a := rfl

theorem M.bind_eq (x : M α) (f : α → M β) : (x >>= f : M β) = M.bind x f := rfl

/-- `throw new Error(msg)`. -/
def M.throwJs (msg : String) : M α := fun st => .error (msg, st)

/-- `try { body } catch (error) { handler }`. -/
def M.tryCatch (body : M α) (handler : String → M α) : M α := fun st =>
  match body st with
  | .error (msg, st') => handler msg st'
  | .ok r => .ok r

def nextOutcome : M Outcome := fun st =>
  match st.sched with
  | [] => .ok (.ret true 200, st)
  | o :: rest => .ok (o, { st with sched := rest })

def readFs : M Fs := fun st => .ok (st.fs, st)

def writeFsEntry (p : String) (v : List Nat) : M Unit := fun st =>
  .ok ((), { st with fs := st.fs.set p v })

def eraseFsEntry (p : String) : M Unit := fun st =>
  .ok ((), { st with fs := st.fs.erase p })

/-- `getInfoAsync(path)`, reduced to the `exists` field the code consults. -/
def getInfoAsync (path : String) : M Bool := do
  match ← nextOutcome with
  | .throwErr => M.throwJs "getInfoAsync failed"
  | .ret _ _ => do
      let fs ← readFs
      pure (Fs.lookup fs path).isSome

def makeDirectoryAsync (path : String) : M Unit := do
  match ← nextOutcome with
  | .throwErr => M.throwJs "makeDirectoryAsync failed"
  | .ret persist _ => if persist then writeFsEntry path [] else pure ()

def deleteAsync (path : String) : M Unit := do
  match ← nextOutcome with
  | .throwErr => M.throwJs "deleteAsync failed"
  | .ret _ _ => eraseFsEntry path

/-- `writeAsStringAsync(path, contents, { encoding: Base64 })`: the platform
decodes the base64 text and writes the raw bytes; un-decodable text makes the
call throw.  A persisted-flag of `false` models the platform reporting
success without the file surviving — exactly the failure mode the
notification-sound module's post-write existence check is there to catch. -/
def writeAsStringAsyncBase64 (path contents : String) : M Unit := do
  match ← nextOutcome with
  | .throwErr => M.throwJs "writeAsStringAsync failed"
  | .ret persist _ =>
      match base64Decode contents with
      | none => M.throwJs "writeAsStringAsync: invalid base64"
      | some bytes => if persist then writeFsEntry path bytes else pure ()

/-- `downloadAsync(url, path)`: transfers the remote content named by `url`
(provided by the environment) to `path` and reports an HTTP status. -/
def downloadAsync (remote : String → List Nat) (url path : String) : M Nat := do
  match ← nextOutcome with
  | .throwErr => M.throwJs "downloadAsync failed"
  | .ret persist status => do
      if persist then writeFsEntry path (remote url) else pure ()
      pure status

structure Env where
  os : OS
  remote : String → List Nat

/-! ### Fixed paths -/

def documentDirectory : String := "file:///data/Documents/"
def AUDIO_DIRNAME : String := "morning-audio"
def AUDIO_FILENAME : String := "morning-alarm.mp3"

def getAudioDirectoryPath : String := documentDirectory ++ AUDIO_DIRNAME ++ "/"
def getAudioFilePath : String := getAudioDirectoryPath ++ AUDIO_FILENAME

def NOTIFICATION_SOUND_FILENAME : String := "morning-alarm-notification.wav"

/-- On iOS the code derives the sounds directory by
`documentDirectory.replace('/Documents/', '/Library/Sounds/')`; evaluated on
the fixed `documentDirectory` above that replacement gives the first branch
below. -/
def getLibrarySoundsPath (env : Env) : String :=
  if env.os = .ios then "file:///data/Library/Sounds/"
  else documentDirectory ++ "sounds/"

def getNotificationSoundPath (env : Env) : String :=
  getLibrarySoundsPath env ++ NOTIFICATION_SOUND_FILENAME

/-! ### src/utils/audioStorage.ts (playback kind) -/

def ensureDirectoryExists (env : Env) : M Unit :=
  if env.os = .web then pure ()
  else do
    let dirExists ← getInfoAsync getAudioDirectoryPath
    if !dirExists then makeDirectoryAsync getAudioDirectoryPath else pure ()

/-- The `try` block of `saveAudioLocally`, named so that runs of it can be
stated as equations. -/
def saveAudioLocallyBody (env : Env) (audioUrl : String) : M (Option String) := do
  ensureDirectoryExists env
  let filePath := getAudioFilePath
  let fileExists ← getInfoAsync filePath
  if fileExists then deleteAsync filePath else pure ()
  if isDataUri audioUrl then
    match extractBase64FromDataUri audioUrl with
    | none => M.throwJs "Invalid data URI format"
    | some base64Data => do
        writeAsStringAsyncBase64 filePath base64Data
        pure (some filePath)
  else do
    let status ← downloadAsync env.remote audioUrl filePath
    if status = 200 then pure (some filePath) else pure none

def saveAudioLocally (env : Env) (audioUrl : String) : M (Option String) :=
  if env.os = .web then pure (some audioUrl)
  else M.tryCatch (saveAudioLocallyBody env audioUrl) (fun _ => pure none)

def getLocalAudioPath (env : Env) : M (Option String) :=
  if env.os = .web then pure none
  else
    M.tryCatch
      (do
        let filePath := getAudioFilePath
        let fileExists ← getInfoAsync filePath
        if fileExists then pure (some filePath) else pure none)
      (fun _ => pure none)

def deleteLocalAudio (env : Env) : M Unit :=
  if env.os = .web then pure ()
  else
    M.tryCatch
      (do
        let filePath := getAudioFilePath
        let fileExists ← getInfoAsync filePath
        if fileExists then deleteAsync filePath else pure ())
      (fun _ => pure ())

/-! ### Notification-sound cache (notification-sound kind) -/

def ensureSoundsDirectoryExists (env : Env) : M Unit :=
  if env.os = .web then pure ()
  else do
    let dirExists ← getInfoAsync (getLibrarySoundsPath env)
    if !dirExists then makeDirectoryAsync (getLibrarySoundsPath env) else pure ()

/-- The post-write existence check of `saveNotificationSound` (its last three
statements), named so that runs can be stated as equations. -/
def soundSavedCheck (env : Env) : M (Option String) := do
  let savedExists ← getInfoAsync (getNotificationSoundPath env)
  if !savedExists then M.throwJs "Sound file was not saved" else pure ()
  pure (some NOTIFICATION_SOUND_FILENAME)

/-- The `try` block of `saveNotificationSound`. -/
def saveNotificationSoundBody (env : Env) (audioUrl : String) : M (Option String) := do
  ensureSoundsDirectoryExists env
  let soundPath := getNotificationSoundPath env
  let fileExists ← getInfoAsync soundPath
  if fileExists then deleteAsync soundPath else pure ()
  if isDataUri audioUrl then
    match extractBase64FromDataUri audioUrl with
    | none => M.throwJs "Invalid data URI format"
    | some base64Data => writeAsStringAsyncBase64 soundPath base64Data
  else do
    let status ← downloadAsync env.remote audioUrl soundPath
    if status ≠ 200 then M.throwJs "Failed to download audio" else pure ()
  soundSavedCheck env

def saveNotificationSound (env : Env) (audioUrl : String) : M (Option String) :=
  if env.os = .web then pure none
  else M.tryCatch (saveNotificationSoundBody env audioUrl) (fun _ => pure none)

def deleteNotificationSound (env : Env) : M Unit :=
  if env.os = .web then pure ()
  else
    M.tryCatch
      (do
        let soundPath := getNotificationSoundPath env
        let fileExists ← getInfoAsync soundPath
        if fileExists then deleteAsync soundPath else pure ())
      (fun _ => pure ())

/-! ### Shared lemmas about the computation model -/

/-- A `try`/`catch` whose handler returns a constant can only end in `.ok`. -/
theorem M.tryCatch_ok (body : M α) (a : α) (st : St) :
    ∃ r st', M.tryCatch body (fun _ => pure a) st = .ok (r, st') := by
  unfold M.tryCatch
  rcases h : body st with ⟨msg, st'⟩ | ⟨r, st'⟩
  · exact ⟨a, st', rfl⟩
  · exact ⟨r, st', rfl⟩

/-- `try`/`catch` evaluated at a state is determined by the body's result. -/
theorem M.tryCatch_eval (body : M α) (handler : String → M α) (st : St) :
    M.tryCatch body handler st =
      match body st with
      | .error (msg, st') => handler msg st'
      | .ok r => .ok r := rfl

/-- A successful regex extraction implies the `data:` classification. -/
theorem extract_isDataUri {url payload : String}
    (hx : extractBase64FromDataUri url = some payload) : isDataUri url = true := by
  unfold extractBase64FromDataUri at hx
  by_cases h : isDataUri url
  · exact h
  · rw [if_neg (by simp [h])] at hx
    exact absurd hx (by simp)

/-- C4: for every environment, every source reference and every behaviour of
the underlying file-system/transfer primitives — including any pattern of
thrown errors, scripted by the outcome schedule in the state — the cache
operations `save`, `load` and `remove` of both asset kinds return through the
normal channel: every internal failure is caught and surfaced as a null
result or a no-op, never as an exception to the caller. -/
theorem C4_cache_operations_never_raise (env : Env) (url : String) (st : St) :
    (∃ r st', saveAudioLocally env url st = .ok (r, st')) ∧
    (∃ r st', getLocalAudioPath env st = .ok (r, st')) ∧
    (∃ st', deleteLocalAudio env st = .ok ((), st')) ∧
    (∃ r st', saveNotificationSound env url st = .ok (r, st')) ∧
    (∃ st', deleteNotificationSound env st = .ok ((), st')) := by
  by_cases hweb : env.os = .web
  · refine ⟨⟨some url, st, ?_⟩, ⟨none, st, ?_⟩, ⟨st, ?_⟩, ⟨none, st, ?_⟩, ⟨st, ?_⟩⟩ <;>
      simp [saveAudioLocally, getLocalAudioPath, deleteLocalAudio,
        saveNotificationSound, deleteNotificationSound, hweb, M.pure_eq, M.pure]
  · refine ⟨?_, ?_, ?_, ?_, ?_⟩
    · rw [saveAudioLocally, if_neg hweb]
      exact M.tryCatch_ok _ none st
    · rw [getLocalAudioPath, if_neg hweb]
      exact M.tryCatch_ok _ none st
    · rw [deleteLocalAudio, if_neg hweb]
      obtain ⟨r, st', h⟩ := M.tryCatch_ok _ () st
      exact ⟨st', h⟩
    · rw [saveNotificationSound, if_neg hweb]
      exact M.tryCatch_ok _ none st
    · rw [deleteNotificationSound, if_neg hweb]
      obtain ⟨r, st', h⟩ := M.tryCatch_ok _ () st
      exact ⟨st', h⟩

/-- C5: on a failure-free run from an empty cache, a source reference
matching the inline grammar `data:<mime>;base64,<payload>` (non-empty
payload) makes `save` write exactly the base64-decoding of the payload to the
kind's fixed path and return non-null, for both asset kinds; a reference
classified as inline (`data:` head) that does not match the grammar makes
`save` fail to a null result. -/
theorem C5_inline_asset_save :
    (∀ (os : OS) (remote : String → List Nat) (url payload : String) (bytes : List Nat),
        os ≠ .web →
        extractBase64FromDataUri url = some payload →
        base64Decode payload = some bytes →
        ∃ fs', saveAudioLocally ⟨os, remote⟩ url ⟨[], []⟩
            = .ok (some getAudioFilePath, ⟨fs', []⟩) ∧
          Fs.lookup fs' getAudioFilePath = some bytes) ∧
    (∀ (os : OS) (remote : String → List Nat) (url : String),
        os ≠ .web → isDataUri url = true →
        extractBase64FromDataUri url = none →
        ∃ st', saveAudioLocally ⟨os, remote⟩ url ⟨[], []⟩ = .ok (none, st')) ∧
    (∀ (os : OS) (remote : String → List Nat) (url payload : String) (bytes : List Nat),
        os ≠ .web →
        extractBase64FromDataUri url = some payload →
        base64Decode payload = some bytes →
        ∃ fs', saveNotificationSound ⟨os, remote⟩ url ⟨[], []⟩
            = .ok (some NOTIFICATION_SOUND_FILENAME, ⟨fs', []⟩) ∧
          Fs.lookup fs' (getNotificationSoundPath ⟨os, remote⟩) = some bytes) ∧
    (∀ (os : OS) (remote : String → List Nat) (url : String),
        os ≠ .web → isDataUri url = true →
        extractBase64FromDataUri url = none →
        ∃ st', saveNotificationSound ⟨os, remote⟩ url ⟨[], []⟩ = .ok (none, st')) := by
  refine ⟨?_, ?_, ?_, ?_⟩
  · intro os remote url payload bytes hw hx hb
    have hdata := extract_isDataUri hx
    cases os with
    | web => exact absurd rfl hw
    | ios =>
        refine ⟨[(getAudioFilePath, bytes), (getAudioDirectoryPath, [])], ?_, ?_⟩
        · simp only [saveAudioLocally, saveAudioLocallyBody, writeAsStringAsyncBase64,
            hdata, hx, hb]
          rfl
        · simp [Fs.lookup]
    | android =>
        refine ⟨[(getAudioFilePath, bytes), (getAudioDirectoryPath, [])], ?_, ?_⟩
        · simp only [saveAudioLocally, saveAudioLocallyBody, writeAsStringAsyncBase64,
            hdata, hx, hb]
          rfl
        · simp [Fs.lookup]
  · intro os remote url hw hd hxn
    cases os with
    | web => exact absurd rfl hw
    | ios =>
        refine ⟨⟨[(getAudioDirectoryPath, [])], []⟩, ?_⟩
        simp only [saveAudioLocally, saveAudioLocallyBody, hd, hxn]
        rfl
    | android =>
        refine ⟨⟨[(getAudioDirectoryPath, [])], []⟩, ?_⟩
        simp only [saveAudioLocally, saveAudioLocallyBody, hd, hxn]
        rfl
  · intro os remote url payload bytes hw hx hb
    have hdata := extract_isDataUri hx
    cases os with
    | web => exact absurd rfl hw
    | ios =>
        refine ⟨[("file:///data/Library/Sounds/" ++ NOTIFICATION_SOUND_FILENAME, bytes),
                 ("file:///data/Library/Sounds/", [])], ?_, ?_⟩
        · simp only [saveNotificationSound, saveNotificationSoundBody, soundSavedCheck,
            writeAsStringAsyncBase64, hdata, hx, hb]
          rfl
        · simp [Fs.lookup, getNotificationSoundPath, getLibrarySoundsPath]
    | android =>
        refine ⟨[(documentDirectory ++ "sounds/" ++ NOTIFICATION_SOUND_FILENAME, bytes),
                 (documentDirectory ++ "sounds/", [])], ?_, ?_⟩
        · simp only [saveNotificationSound, saveNotificationSoundBody, soundSavedCheck,
            writeAsStringAsyncBase64, hdata, hx, hb]
          rfl
        · simp [Fs.lookup, getNotificationSoundPath, getLibrarySoundsPath]
  · intro os remote url hw hd hxn
    cases os with
    | web => exact absurd rfl hw
    | ios =>
        refine ⟨⟨[("file:///data/Library/Sounds/", [])], []⟩, ?_⟩
        simp only [saveNotificationSound, saveNotificationSoundBody, hd, hxn]
        rfl
    | android =>
        refine ⟨⟨[(documentDirectory ++ "sounds/", [])], []⟩, ?_⟩
        simp only [saveNotificationSound, saveNotificationSoundBody, hd, hxn]
        rfl

/-- Witness for C5: the playback-kind clause at the concrete inline asset
`data:audio/wav;base64,AAAA`, whose payload decodes to three zero bytes. -/
theorem C5_inline_asset_save_witness :
    ∃ fs', saveAudioLocally ⟨.ios, fun _ => []⟩ "data:audio/wav;base64,AAAA" ⟨[], []⟩
        = .ok (some getAudioFilePath, ⟨fs', []⟩) ∧
      Fs.lookup fs' getAudioFilePath = some [0, 0, 0] :=
  C5_inline_asset_save.1 .ios (fun _ => []) "data:audio/wav;base64,AAAA" "AAAA" [0, 0, 0]
    (by decide) (by decide) (by decide)

/-- C6: a source reference that does not match the `data:` classification is
treated as a remote URL: `save` transfers it to the kind's fixed path (the
transferred bytes are the remote content of the URL when the platform
persists them) and the result is null exactly when the transfer does not
report status 200.  Shown for a failure-free schedule whose transfer outcome
carries an arbitrary status, for both asset kinds. -/
theorem C6_remote_reference_save :
    (∀ (os : OS) (remote : String → List Nat) (url : String) (status : Nat) (persist : Bool),
        os ≠ .web → isDataUri url = false →
        saveAudioLocally ⟨os, remote⟩ url
            ⟨[], [.ret true 200, .ret true 200, .ret true 200, .ret persist status]⟩
          = .ok ((if status = 200 then some getAudioFilePath else none),
                 ⟨(if persist then
                     Fs.set [(getAudioDirectoryPath, [])] getAudioFilePath (remote url)
                   else [(getAudioDirectoryPath, [])]), []⟩)) ∧
    (∀ (os : OS) (remote : String → List Nat) (url : String) (status : Nat),
        os ≠ .web → isDataUri url = false →
        ∃ st', saveNotificationSound ⟨os, remote⟩ url
            ⟨[], [.ret true 200, .ret true 200, .ret true 200, .ret true status]⟩
          = .ok ((if status = 200 then some NOTIFICATION_SOUND_FILENAME else none), st')) := by
  constructor
  · intro os remote url status persist hw hd
    cases os with
    | web => exact absurd rfl hw
    | ios =>
        cases persist
        · by_cases hs : status = 200
          · subst hs
            simp only [saveAudioLocally, saveAudioLocallyBody, hd]
            rfl
          · have hbody : saveAudioLocallyBody ⟨.ios, remote⟩ url
                ⟨[], [.ret true 200, .ret true 200, .ret true 200, .ret false status]⟩
                = (if status = 200 then (pure (some getAudioFilePath) : M (Option String))
                   else pure none) ⟨[(getAudioDirectoryPath, [])], []⟩ := by
              simp only [saveAudioLocallyBody, hd]
              rfl
            rw [show saveAudioLocally ⟨.ios, remote⟩ url
                  ⟨[], [.ret true 200, .ret true 200, .ret true 200, .ret false status]⟩
                = M.tryCatch (saveAudioLocallyBody ⟨.ios, remote⟩ url) (fun _ => pure none)
                  ⟨[], [.ret true 200, .ret true 200, .ret true 200, .ret false status]⟩ from rfl]
            rw [M.tryCatch_eval, hbody, if_neg hs, if_neg hs]
            rfl
        · by_cases hs : status = 200
          · subst hs
            simp only [saveAudioLocally, saveAudioLocallyBody, hd]
            rfl
          · have hbody : saveAudioLocallyBody ⟨.ios, remote⟩ url
                ⟨[], [.ret true 200, .ret true 200, .ret true 200, .ret true status]⟩
                = (if status = 200 then (pure (some getAudioFilePath) : M (Option String))
                   else pure none)
                  ⟨Fs.set [(getAudioDirectoryPath, [])] getAudioFilePath (remote url), []⟩ := by
              simp only [saveAudioLocallyBody, hd]
              rfl
            rw [show saveAudioLocally ⟨.ios, remote⟩ url
                  ⟨[], [.ret true 200, .ret true 200, .ret true 200, .ret true status]⟩
                = M.tryCatch (saveAudioLocallyBody ⟨.ios, remote⟩ url) (fun _ => pure none)
                  ⟨[], [.ret true 200, .ret true 200, .ret true 200, .ret true status]⟩ from rfl]
            rw [M.tryCatch_eval, hbody, if_neg hs, if_neg hs]
            rfl
    | android =>
        cases persist
        · by_cases hs : status = 200
          · subst hs
            simp only [saveAudioLocally, saveAudioLocallyBody, hd]
            rfl
          · have hbody : saveAudioLocallyBody ⟨.android, remote⟩ url
                ⟨[], [.ret true 200, .ret true 200, .ret true 200, .ret false status]⟩
                = (if status = 200 then (pure (some getAudioFilePath) : M (Option String))
                   else pure none) ⟨[(getAudioDirectoryPath, [])], []⟩ := by
              simp only [saveAudioLocallyBody, hd]
              rfl
            rw [show saveAudioLocally ⟨.android, remote⟩ url
                  ⟨[], [.ret true 200, .ret true 200, .ret true 200, .ret false status]⟩
                = M.tryCatch (saveAudioLocallyBody ⟨.android, remote⟩ url) (fun _ => pure none)
                  ⟨[], [.ret true 200, .ret true 200, .ret true 200, .ret false status]⟩ from rfl]
            rw [M.tryCatch_eval, hbody, if_neg hs, if_neg hs]
            rfl
        · by_cases hs : status = 200
          · subst hs
            simp only [saveAudioLocally, saveAudioLocallyBody, hd]
            rfl
          · have hbody : saveAudioLocallyBody ⟨.android, remote⟩ url
                ⟨[], [.ret true 200, .ret true 200, .ret true 200, .ret true status]⟩
                = (if status = 200 then (pure (some getAudioFilePath) : M (Option String))
                   else pure none)
                  ⟨Fs.set [(getAudioDirectoryPath, [])] getAudioFilePath (remote url), []⟩ := by
              simp only [saveAudioLocallyBody, hd]
              rfl
            rw [show saveAudioLocally ⟨.android, remote⟩ url
                  ⟨[], [.ret true 200, .ret true 200, .ret true 200, .ret true status]⟩
                = M.tryCatch (saveAudioLocallyBody ⟨.android, remote⟩ url) (fun _ => pure none)
                  ⟨[], [.ret true 200, .ret true 200, .ret true 200, .ret true status]⟩ from rfl]
            rw [M.tryCatch_eval, hbody, if_neg hs, if_neg hs]
            rfl
  · intro os remote url status hw hd
    cases os with
    | web => exact absurd rfl hw
    | ios =>
        by_cases hs : status = 200
        · subst hs
          refine ⟨⟨[("file:///data/Library/Sounds/" ++ NOTIFICATION_SOUND_FILENAME, remote url), ("file:///data/Library/Sounds/", [])], []⟩, ?_⟩
          simp only [saveNotificationSound, saveNotificationSoundBody, soundSavedCheck, hd]
          rfl
        · refine ⟨⟨[("file:///data/Library/Sounds/" ++ NOTIFICATION_SOUND_FILENAME, remote url), ("file:///data/Library/Sounds/", [])], []⟩, ?_⟩
          have hbody : saveNotificationSoundBody ⟨.ios, remote⟩ url
              ⟨[], [.ret true 200, .ret true 200, .ret true 200, .ret true status]⟩
              = (if status ≠ 200 then
                   ((M.throwJs "Failed to download audio" : M Unit) >>=
                     fun _ => soundSavedCheck ⟨.ios, remote⟩)
                 else ((pure () : M Unit) >>= fun _ => soundSavedCheck ⟨.ios, remote⟩))
                ⟨[("file:///data/Library/Sounds/" ++ NOTIFICATION_SOUND_FILENAME, remote url), ("file:///data/Library/Sounds/", [])], []⟩ := by
            simp only [saveNotificationSoundBody, hd]
            rfl
          rw [show saveNotificationSound ⟨.ios, remote⟩ url
                ⟨[], [.ret true 200, .ret true 200, .ret true 200, .ret true status]⟩
              = M.tryCatch (saveNotificationSoundBody ⟨.ios, remote⟩ url) (fun _ => pure none)
                ⟨[], [.ret true 200, .ret true 200, .ret true 200, .ret true status]⟩ from rfl]
          rw [M.tryCatch_eval, hbody, if_pos hs, if_neg hs]
          rfl
    | android =>
        by_cases hs : status = 200
        · subst hs
          refine ⟨⟨[((documentDirectory ++ "sounds/") ++ NOTIFICATION_SOUND_FILENAME, remote url), ((documentDirectory ++ "sounds/"), [])], []⟩, ?_⟩
          simp only [saveNotificationSound, saveNotificationSoundBody, soundSavedCheck, hd]
          rfl
        · refine ⟨⟨[((documentDirectory ++ "sounds/") ++ NOTIFICATION_SOUND_FILENAME, remote url), ((documentDirectory ++ "sounds/"), [])], []⟩, ?_⟩
          have hbody : saveNotificationSoundBody ⟨.android, remote⟩ url
              ⟨[], [.ret true 200, .ret true 200, .ret true 200, .ret true status]⟩
              = (if status ≠ 200 then
                   ((M.throwJs "Failed to download audio" : M Unit) >>=
                     fun _ => soundSavedCheck ⟨.android, remote⟩)
                 else ((pure () : M Unit) >>= fun _ => soundSavedCheck ⟨.android, remote⟩))
                ⟨[((documentDirectory ++ "sounds/") ++ NOTIFICATION_SOUND_FILENAME, remote url), ((documentDirectory ++ "sounds/"), [])], []⟩ := by
            simp only [saveNotificationSoundBody, hd]
            rfl
          rw [show saveNotificationSound ⟨.android, remote⟩ url
                ⟨[], [.ret true 200, .ret true 200, .ret true 200, .ret true status]⟩
              = M.tryCatch (saveNotificationSoundBody ⟨.android, remote⟩ url) (fun _ => pure none)
                ⟨[], [.ret true 200, .ret true 200, .ret true 200, .ret true status]⟩ from rfl]
          rw [M.tryCatch_eval, hbody, if_pos hs, if_neg hs]
          rfl

/-- C6 has hypotheses; witness at a concrete failed transfer (status 404) of
a non-inline reference, which yields a null result. -/
theorem C6_remote_reference_save_witness :
    saveAudioLocally ⟨.ios, fun _ => [1, 2, 3]⟩ "https://example.com/a.mp3"
        ⟨[], [.ret true 200, .ret true 200, .ret true 200, .ret true 404]⟩
      = .ok ((if 404 = 200 then some getAudioFilePath else none),
             ⟨(if true then
                 Fs.set [(getAudioDirectoryPath, [])] getAudioFilePath
                   ((fun _ => [1, 2, 3]) "https://example.com/a.mp3")
               else [(getAudioDirectoryPath, [])]), []⟩) :=
  C6_remote_reference_save.1 .ios (fun _ => [1, 2, 3]) "https://example.com/a.mp3" 404 true
    (by decide) (by decide)

/-- C7 counterexample: the playback-kind `save` has no post-write existence
check.  On a run where the platform reports the base64 write as successful
but does not persist the file, `saveAudioLocally` returns a non-null path
while the fixed path does not exist — the claim's "save never returns a
non-null result while the file is absent" is false for the playback kind. -/
theorem C7_missing_postcheck_counterexample :
    saveAudioLocally ⟨.ios, fun _ => []⟩ "data:audio/wav;base64,AAAA"
        ⟨[], [.ret true 200, .ret true 200, .ret true 200, .ret false 200]⟩
      = .ok (some getAudioFilePath, ⟨[(getAudioDirectoryPath, [])], []⟩) ∧
    Fs.lookup [(getAudioDirectoryPath, [])] getAudioFilePath = none :=
  ⟨rfl, rfl⟩

/-- C7 (amended): only the notification-sound kind checks, after its write
step, that the fixed path exists, failing to a null result when it does not;
the playback kind performs no such check and can return a non-null result
while its fixed path is absent. -/
theorem C7_postcheck_only_for_notification_sound :
    (∀ (os : OS) (remote : String → List Nat) (url payload : String)
        (bytes : List Nat) (p : Bool),
        os ≠ .web →
        extractBase64FromDataUri url = some payload →
        base64Decode payload = some bytes →
        ∃ st', saveNotificationSound ⟨os, remote⟩ url
            ⟨[], [.ret true 200, .ret true 200, .ret true 200, .ret p 200, .ret true 200]⟩
          = .ok ((if p then some NOTIFICATION_SOUND_FILENAME else none), st') ∧
          (p = true →
            Fs.lookup st'.fs (getNotificationSoundPath ⟨os, remote⟩) = some bytes) ∧
          (p = false →
            Fs.lookup st'.fs (getNotificationSoundPath ⟨os, remote⟩) = none)) ∧
    (∀ (os : OS) (remote : String → List Nat) (url payload : String) (bytes : List Nat),
        os ≠ .web →
        extractBase64FromDataUri url = some payload →
        base64Decode payload = some bytes →
        ∃ st', saveAudioLocally ⟨os, remote⟩ url
            ⟨[], [.ret true 200, .ret true 200, .ret true 200, .ret false 200]⟩
          = .ok (some getAudioFilePath, st') ∧
          Fs.lookup st'.fs getAudioFilePath = none) := by
  constructor
  · intro os remote url payload bytes p hw hx hb
    have hdata := extract_isDataUri hx
    cases os with
    | web => exact absurd rfl hw
    | ios =>
        cases p
        · refine ⟨⟨[("file:///data/Library/Sounds/", [])], []⟩, ?_, ?_, ?_⟩
          · simp only [saveNotificationSound, saveNotificationSoundBody, soundSavedCheck,
            writeAsStringAsyncBase64, hdata, hx, hb]
            rfl
          · intro h; exact absurd h (by simp)
          · intro h
            rfl
        · refine ⟨⟨[("file:///data/Library/Sounds/" ++ NOTIFICATION_SOUND_FILENAME, bytes),
                    ("file:///data/Library/Sounds/", [])], []⟩, ?_, ?_, ?_⟩
          · simp only [saveNotificationSound, saveNotificationSoundBody, soundSavedCheck,
            writeAsStringAsyncBase64, hdata, hx, hb]
            rfl
          · intro h
            simp [Fs.lookup, getNotificationSoundPath, getLibrarySoundsPath]
          · intro h; exact absurd h (by simp)
    | android =>
        cases p
        · refine ⟨⟨[(documentDirectory ++ "sounds/", [])], []⟩, ?_, ?_, ?_⟩
          · simp only [saveNotificationSound, saveNotificationSoundBody, soundSavedCheck,
            writeAsStringAsyncBase64, hdata, hx, hb]
            rfl
          · intro h; exact absurd h (by simp)
          · intro h
            rfl
        · refine ⟨⟨[(documentDirectory ++ "sounds/" ++ NOTIFICATION_SOUND_FILENAME, bytes),
                    (documentDirectory ++ "sounds/", [])], []⟩, ?_, ?_, ?_⟩
          · simp only [saveNotificationSound, saveNotificationSoundBody, soundSavedCheck,
            writeAsStringAsyncBase64, hdata, hx, hb]
            rfl
          · intro h
            simp [Fs.lookup, getNotificationSoundPath, getLibrarySoundsPath]
          · intro h; exact absurd h (by simp)
  · intro os remote url payload bytes hw hx hb
    have hdata := extract_isDataUri hx
    cases os with
    | web => exact absurd rfl hw
    | ios =>
        refine ⟨⟨[(getAudioDirectoryPath, [])], []⟩, ?_, ?_⟩
        · simp only [saveAudioLocally, saveAudioLocallyBody, writeAsStringAsyncBase64,
            hdata, hx, hb]
          rfl
        · decide
    | android =>
        refine ⟨⟨[(getAudioDirectoryPath, [])], []⟩, ?_, ?_⟩
        · simp only [saveAudioLocally, saveAudioLocallyBody, writeAsStringAsyncBase64,
            hdata, hx, hb]
          rfl
        · decide

/-- Witness for the amended C7: the notification-sound clause at the concrete
inline asset with the write persisted. -/
theorem C7_postcheck_only_for_notification_sound_witness :
    ∃ st', saveNotificationSound ⟨.ios, fun _ => []⟩ "data:audio/wav;base64,AAAA"
        ⟨[], [.ret true 200, .ret true 200, .ret true 200, .ret true 200, .ret true 200]⟩
      = .ok ((if true then some NOTIFICATION_SOUND_FILENAME else none), st') ∧
      (true = true →
        Fs.lookup st'.fs (getNotificationSoundPath ⟨.ios, fun _ => []⟩) = some [0, 0, 0]) ∧
      (true = false →
        Fs.lookup st'.fs (getNotificationSoundPath ⟨.ios, fun _ => []⟩) = none) :=
  C7_postcheck_only_for_notification_sound.1 .ios (fun _ => [])
    "data:audio/wav;base64,AAAA" "AAAA" [0, 0, 0] true
    (by decide) (by decide) (by decide)

/-! ## PermissionGate: `requestNotificationPermissions`
(src/utils/alarmScheduler.ts, lines 28-45)

The platform permission machinery is external; the environment supplies the
platform, whether the web Notification API exists, the current permission
state, and the outcome a user would choose at a prompt.  The model returns,
besides the boolean, how many consent-request API calls were issued and how
many user-visible prompts were shown (a browser or OS shows no prompt when
the state is already determined). -/

inductive PermStatus where
  | granted
  | denied
  | undetermined
deriving DecidableEq, Repr

structure PermEnv where
  os : OS
  webHasNotificationAPI : Bool
  webPermissionState : PermStatus
  webUserChoice : PermStatus
  nativeExistingStatus : PermStatus
  nativeRequestOutcome : PermStatus
deriving DecidableEq, Repr

structure PermCallResult where
  granted : Bool
  consentRequests : Nat
  userPrompts : Nat
deriving DecidableEq, Repr

/-- Browser semantics of `Notification.requestPermission()`: resolves with
the current state when it is already determined, otherwise prompts and
resolves with the user's choice. -/
def webRequestPermission (env : PermEnv) : PermStatus :=
  match env.webPermissionState with
  | .granted => .granted
  | .denied => .denied
  | .undetermined => env.webUserChoice

def requestNotificationPermissions (env : PermEnv) : PermCallResult :=
  if env.os = .web then
    if env.webHasNotificationAPI then
      { granted := webRequestPermission env == .granted,
        consentRequests := 1,
        userPrompts := if env.webPermissionState = .undetermined then 1 else 0 }
    else
      { granted := false, consentRequests := 0, userPrompts := 0 }
  else
    if env.nativeExistingStatus = .granted then
      { granted := true, consentRequests := 0, userPrompts := 0 }
    else
      { granted := env.nativeRequestOutcome == .granted,
        consentRequests := 1,
        userPrompts := if env.nativeExistingStatus = .undetermined then 1 else 0 }

/-! ## NotificationScheduler: `scheduleAlarm` / `cancelExistingAlarm`
(src/utils/alarmScheduler.ts, lines 61-126) -/

def ALARM_NOTIFICATION_ID : String := "morning-alarm"

/-- The `sound` field: a file name, or `true` (the platform default). -/
inductive SoundSpec where
  | file : String → SoundSpec
  | defaultSound : SoundSpec
deriving DecidableEq, Repr

structure NotifContent where
  title : String
  body : String
  sound : SoundSpec
  dataType : String
deriving DecidableEq, Repr

structure Registration where
  identifier : String
  content : NotifContent
  seconds : Int
deriving DecidableEq, Repr

abbrev Regs := List Registration

structure NotifEnv where
  perm : PermEnv
  /-- `new Date()` read inside `calculateNextAlarmTime`. -/
  now : Int
  /-- `Date.now()` read when computing the registration delay; may differ
  from `now` by the time elapsed between the two reads. -/
  nowAtRegistration : Int
  cancelThrows : Bool
  registerThrows : Bool
deriving DecidableEq, Repr

structure ScheduleAlarmParams where
  wakeUpTime : String
  name : String
  soundFileName : Option String
deriving DecidableEq, Repr

structure ScheduleResult where
  success : Bool
  error : Option String
  scheduledTime : Option Int
deriving DecidableEq, Repr

/-- `cancelScheduledNotificationAsync(ALARM_NOTIFICATION_ID)` inside its
try/catch: on web a no-op; a thrown error is caught and logged, leaving the
registrations unchanged. -/
def cancelExistingAlarm (env : NotifEnv) (regs : Regs) : Regs :=
  if env.perm.os = .web then regs
  else if env.cancelThrows then regs
  else regs.filter (fun r => r.identifier != ALARM_NOTIFICATION_ID)

/-- `scheduleNotificationAsync`: the platform keys registrations by
identifier, so scheduling under an existing identifier replaces it. -/
def scheduleNotificationAsync (r : Registration) (regs : Regs) : Regs :=
  regs.filter (fun q => q.identifier != r.identifier) ++ [r]

/-- `soundFileName || true`: JavaScript truthiness, so `undefined` and the
empty string both fall back to `true` (the platform default sound). -/
def jsSoundOf : Option String → SoundSpec
  | some s => if s = "" then .defaultSound else .file s
  | none => .defaultSound

/-- `scheduleAlarm` from src/utils/alarmScheduler.ts.  An invalid wake-up
time makes the computed delay NaN; the registration call rejects it, and the
thrown error is caught and mapped to the generic failure result.  The
try/catch around the whole body is modelled by the explicit failure results
(`cancelThrows` is absorbed inside `cancelExistingAlarm`; `registerThrows`
makes the registration step fail). -/
def scheduleAlarm (env : NotifEnv) (params : ScheduleAlarmParams) (regs : Regs) :
    ScheduleResult × Regs :=
  let hasPermission := (requestNotificationPermissions env.perm).granted
  if ¬ hasPermission then
    ({ success := false,
       error := some "Notification permissions are required to schedule your morning alarm.",
       scheduledTime := none }, regs)
  else
    let regs1 := cancelExistingAlarm env regs
    match calculateNextAlarmTime env.now params.wakeUpTime with
    | none =>
        ({ success := false,
           error := some "Failed to schedule alarm. Please try again.",
           scheduledTime := none }, regs1)
    | some alarmTime =>
        let secondsUntilAlarm : Int := max 1 ((alarmTime - env.nowAtRegistration) / 1000)
        if env.perm.os = .web then
          ({ success := true,
             error := some "Web notifications have limited background support. Keep the browser tab open for best results.",
             scheduledTime := some alarmTime }, regs1)
        else if env.registerThrows then
          ({ success := false,
             error := some "Failed to schedule alarm. Please try again.",
             scheduledTime := none }, regs1)
        else
          ({ success := true, error := none, scheduledTime := some alarmTime },
           scheduleNotificationAsync
             { identifier := ALARM_NOTIFICATION_ID,
               content := { title := "Good Morning!",
                            body := params.name ++ ", your personalized morning audio is ready.",
                            sound := jsSoundOf params.soundFileName,
                            dataType := "morning-alarm" },
               seconds := secondsUntilAlarm } regs1)

/-- Registrations carrying the fixed alarm identifier. -/
def alarmsOf (regs : Regs) : Regs :=
  regs.filter (fun r => r.identifier == ALARM_NOTIFICATION_ID)

/-- A schedule or cancel operation, with the environment it runs under. -/
inductive AlarmOp where
  | schedule : NotifEnv → ScheduleAlarmParams → AlarmOp
  | cancel : NotifEnv → AlarmOp

def runAlarmOp (regs : Regs) : AlarmOp → Regs
  | .schedule env params => (scheduleAlarm env params regs).2
  | .cancel env => cancelExistingAlarm env regs

def runAlarmOps (regs : Regs) : List AlarmOp → Regs
  | [] => regs
  | op :: ops => runAlarmOps (runAlarmOp regs op) ops

/-! ## SchedulingOrchestrator: `handleScheduleAlarm` (src/app/playback.tsx)

The two `MediaCache.save` calls resolve to `savedPath` / `soundFileName`,
passed in as the results of the parallel saves; the mounted-observer flag is
taken as true (the session is observed throughout). -/

inductive SchedulingStatus where
  | idle
  | saving
  | scheduling
  | scheduled
  | cancelling
  | error
deriving DecidableEq, Repr

structure SessionState where
  schedulingStatus : SchedulingStatus
  errorMessage : Option String
  scheduleResult : Option ScheduleResult
  localAudioPath : Option String
deriving DecidableEq, Repr

/-- JavaScript truthiness of a string-or-undefined value: `undefined` and
`""` are falsy. -/
def truthyStr : Option String → Bool
  | none => false
  | some s => s != ""

def handleScheduleAlarm (audioUrl wakeUpTime : Option String) (name : String)
    (savedPath soundFileName : Option String)
    (env : NotifEnv) (sess : SessionState) (regs : Regs) : SessionState × Regs :=
  if ¬ truthyStr audioUrl then
    ({ sess with errorMessage := some "No audio available to schedule.",
                 schedulingStatus := .error }, regs)
  else if ¬ truthyStr wakeUpTime then
    ({ sess with errorMessage := some "No wake-up time specified.",
                 schedulingStatus := .error }, regs)
  else
    if ¬ truthyStr savedPath then
      ({ sess with errorMessage := some "Failed to save audio. Please try again.",
                   schedulingStatus := .error }, regs)
    else
      let sess1 : SessionState :=
        { sess with errorMessage := none, localAudioPath := savedPath,
                    schedulingStatus := .scheduling }
      let res := scheduleAlarm env
        { wakeUpTime := wakeUpTime.getD "", name := name,
          soundFileName := if truthyStr soundFileName then soundFileName else none } regs
      if res.1.success then
        ({ sess1 with schedulingStatus := .scheduled, scheduleResult := some res.1,
                      errorMessage := if truthyStr res.1.error then res.1.error else none },
         res.2)
      else
        ({ sess1 with schedulingStatus := .error, scheduleResult := some res.1,
                      errorMessage :=
                        if truthyStr res.1.error then res.1.error
                        else some "Failed to schedule alarm." },
         res.2)

/-! ## Claims about the permission gate and the scheduler -/

/-- C8 counterexample: on web with the Notification API present and the
permission state already granted, the code still issues a consent-request API
call — `Notification.requestPermission()` is invoked unconditionally — so
"returns true without issuing any consent request" fails there (no
user-visible prompt appears, but the request is issued). -/
theorem C8_web_granted_counterexample :
    (⟨.web, true, .granted, .denied, .undetermined, .denied⟩ : PermEnv).webPermissionState
        = .granted ∧
    requestNotificationPermissions ⟨.web, true, .granted, .denied, .undetermined, .denied⟩
        = ⟨true, 1, 0⟩ ∧
    (requestNotificationPermissions
        ⟨.web, true, .granted, .denied, .undetermined, .denied⟩).consentRequests ≠ 0 := by
  exact ⟨rfl, rfl, by decide⟩

/-- C8 (amended): on an environment lacking the notification capability (web
without the Notification API) the gate returns false with no consent request
and no prompt.  On native platforms an already-granted state returns true
with no consent request; otherwise exactly one consent request is issued and
its boolean result returned.  On web with the capability the code always
issues exactly one consent-request API call — even when the state is already
granted, in which case the call resolves true without any user-visible
prompt — and returns that call's boolean result.  Never more than one
request, and never more than one prompt, per call. -/
theorem C8_permission_gate_behaviour (env : PermEnv) :
    (requestNotificationPermissions env).consentRequests ≤ 1 ∧
    (requestNotificationPermissions env).userPrompts
      ≤ (requestNotificationPermissions env).consentRequests ∧
    (env.os = .web → env.webHasNotificationAPI = false →
      requestNotificationPermissions env = ⟨false, 0, 0⟩) ∧
    (env.os ≠ .web → env.nativeExistingStatus = .granted →
      requestNotificationPermissions env = ⟨true, 0, 0⟩) ∧
    (env.os ≠ .web → env.nativeExistingStatus ≠ .granted →
      requestNotificationPermissions env
        = ⟨env.nativeRequestOutcome == .granted, 1,
           if env.nativeExistingStatus = .undetermined then 1 else 0⟩) ∧
    (env.os = .web → env.webHasNotificationAPI = true →
      requestNotificationPermissions env
        = ⟨webRequestPermission env == .granted, 1,
           if env.webPermissionState = .undetermined then 1 else 0⟩ ∧
      (env.webPermissionState = .granted →
        (requestNotificationPermissions env).granted = true ∧
        (requestNotificationPermissions env).userPrompts = 0)) := by
  rcases env with ⟨os, hasapi, wstate, wchoice, nstat, nreq⟩
  cases os <;> cases hasapi <;> cases wstate <;> cases nstat <;>
    simp [requestNotificationPermissions, webRequestPermission]

/-- Witness for the amended C8: a native environment whose permission state
is already granted returns true without any consent request or prompt. -/
theorem C8_permission_gate_behaviour_witness :
    requestNotificationPermissions
        ⟨.ios, false, .undetermined, .denied, .granted, .denied⟩ = ⟨true, 0, 0⟩ :=
  (C8_permission_gate_behaviour
      ⟨.ios, false, .undetermined, .denied, .granted, .denied⟩).2.2.2.1
    (by decide) (by decide)

/-! ### Registration-list lemmas -/

theorem alarmsOf_filter_out (regs : Regs) :
    alarmsOf (regs.filter (fun q => q.identifier != ALARM_NOTIFICATION_ID)) = [] := by
  unfold alarmsOf
  induction regs with
  | nil => rfl
  | cons a regs ih =>
      by_cases h : a.identifier = ALARM_NOTIFICATION_ID <;>
        simp [List.filter_cons, h, ih]

theorem alarmsOf_upsert (r : Registration) (regs : Regs)
    (h : r.identifier = ALARM_NOTIFICATION_ID) :
    alarmsOf (scheduleNotificationAsync r regs) = [r] := by
  unfold scheduleNotificationAsync
  rw [show regs.filter (fun q => q.identifier != r.identifier)
        = regs.filter (fun q => q.identifier != ALARM_NOTIFICATION_ID) by rw [h]]
  unfold alarmsOf
  rw [List.filter_append]
  have h1 := alarmsOf_filter_out regs
  unfold alarmsOf at h1
  rw [h1]
  simp [h]

theorem alarmsOf_cancel (env : NotifEnv) (regs : Regs)
    (h : (alarmsOf regs).length ≤ 1) :
    (alarmsOf (cancelExistingAlarm env regs)).length ≤ 1 := by
  unfold cancelExistingAlarm
  by_cases hw : env.perm.os = .web
  · rw [if_pos hw]; exact h
  · rw [if_neg hw]
    by_cases hc : env.cancelThrows = true
    · rw [if_pos hc]; exact h
    · rw [if_neg hc, alarmsOf_filter_out]
      simp

/-- A fully successful native `scheduleAlarm` call, as one equation. -/
theorem scheduleAlarm_success_eq (env : NotifEnv) (params : ScheduleAlarmParams) (regs : Regs)
    (hw : env.perm.os ≠ .web)
    (hperm : (requestNotificationPermissions env.perm).granted = true)
    (hreg : env.registerThrows = false)
    (t : Int) (hcalc : calculateNextAlarmTime env.now params.wakeUpTime = some t) :
    scheduleAlarm env params regs
      = ({ success := true, error := none, scheduledTime := some t },
         scheduleNotificationAsync
           { identifier := ALARM_NOTIFICATION_ID,
             content := { title := "Good Morning!",
                          body := params.name ++ ", your personalized morning audio is ready.",
                          sound := jsSoundOf params.soundFileName,
                          dataType := "morning-alarm" },
             seconds := max 1 ((t - env.nowAtRegistration) / 1000) }
           (cancelExistingAlarm env regs)) := by
  simp only [scheduleAlarm, hperm, hcalc, hreg]
  rw [if_neg (by simp), if_neg hw, if_neg (by simp)]

theorem alarmsOf_schedule (env : NotifEnv) (params : ScheduleAlarmParams) (regs : Regs)
    (h : (alarmsOf regs).length ≤ 1) :
    (alarmsOf (scheduleAlarm env params regs).2).length ≤ 1 := by
  by_cases hperm : (requestNotificationPermissions env.perm).granted = true
  · rcases hcalc : calculateNextAlarmTime env.now params.wakeUpTime with _ | t
    · simp only [scheduleAlarm, hperm, hcalc]
      rw [if_neg (by simp)]
      exact alarmsOf_cancel env regs h
    · by_cases hw : env.perm.os = .web
      · simp only [scheduleAlarm, hperm, hcalc]
        rw [if_neg (by simp), if_pos hw]
        exact alarmsOf_cancel env regs h
      · by_cases hr : env.registerThrows = true
        · simp only [scheduleAlarm, hperm, hcalc]
          rw [if_neg (by simp), if_neg hw, if_pos hr]
          exact alarmsOf_cancel env regs h
        · rw [scheduleAlarm_success_eq env params regs hw hperm (by simpa using hr) t hcalc]
          rw [alarmsOf_upsert _ _ rfl]
          simp
  · simp only [scheduleAlarm]
    rw [if_pos (by simp [hperm])]
    exact h

/-- C2: at most one registration under the fixed identifier "morning-alarm"
exists at any time: any sequence of schedule/cancel operations preserves the
bound, and after two schedule calls whose second succeeds, exactly the second
call's registration (its title, body, sound and delay) remains under the
identifier. -/
theorem C2_single_alarm_registration :
    (∀ (ops : List AlarmOp) (regs : Regs),
        (alarmsOf regs).length ≤ 1 → (alarmsOf (runAlarmOps regs ops)).length ≤ 1) ∧
    (∀ (env1 env2 : NotifEnv) (p1 p2 : ScheduleAlarmParams) (regs : Regs),
        env2.perm.os ≠ .web →
        (requestNotificationPermissions env2.perm).granted = true →
        env2.registerThrows = false →
        ∀ t2, calculateNextAlarmTime env2.now p2.wakeUpTime = some t2 →
        alarmsOf (scheduleAlarm env2 p2 (scheduleAlarm env1 p1 regs).2).2
          = [{ identifier := ALARM_NOTIFICATION_ID,
               content := { title := "Good Morning!",
                            body := p2.name ++ ", your personalized morning audio is ready.",
                            sound := jsSoundOf p2.soundFileName,
                            dataType := "morning-alarm" },
               seconds := max 1 ((t2 - env2.nowAtRegistration) / 1000) }]) := by
  constructor
  · intro ops
    induction ops with
    | nil => intro regs h; exact h
    | cons op ops ih =>
        intro regs h
        refine ih (runAlarmOp regs op) ?_
        cases op with
        | schedule env params => exact alarmsOf_schedule env params regs h
        | cancel env => exact alarmsOf_cancel env regs h
  · intro env1 env2 p1 p2 regs hw hperm hreg t2 hcalc
    rw [scheduleAlarm_success_eq env2 p2 _ hw hperm hreg t2 hcalc]
    exact alarmsOf_upsert _ _ rfl

/-- A concrete native environment used for the scheduler witnesses:
permission already granted, clock at 2024-01-01T10:00:00, and the
registration-time clock 500 ms later. -/
def nativeEnvAt10 : NotifEnv :=
  { perm := ⟨.ios, false, .undetermined, .denied, .granted, .denied⟩,
    now := jan1of2024 + 10 * msPerHour,
    nowAtRegistration := jan1of2024 + 10 * msPerHour + 500,
    cancelThrows := false,
    registerThrows := false }

def wake1130 : ScheduleAlarmParams := ⟨"11:30", "Ada", none⟩

/-- Witness for C2: two concrete schedule calls leave exactly the second
call's registration. -/
theorem C2_single_alarm_registration_witness :
    alarmsOf (scheduleAlarm nativeEnvAt10 wake1130
        (scheduleAlarm nativeEnvAt10 wake1130 []).2).2
      = [{ identifier := ALARM_NOTIFICATION_ID,
           content := { title := "Good Morning!",
                        body := wake1130.name ++ ", your personalized morning audio is ready.",
                        sound := jsSoundOf wake1130.soundFileName,
                        dataType := "morning-alarm" },
           seconds := max 1 (((jan1of2024 + 11 * msPerHour + 30 * msPerMinute)
                              - nativeEnvAt10.nowAtRegistration) / 1000) }] :=
  C2_single_alarm_registration.2 nativeEnvAt10 nativeEnvAt10 wake1130 wake1130 []
    (by decide) (by decide) (by decide)
    (jan1of2024 + 11 * msPerHour + 30 * msPerMinute) (by decide)

/-- C9 counterexample: with the registration clock 500 ms past the whole
minute, the delay handed to the scheduler is 5399 whole seconds, while
max(1 s, trigger − now) is 5399500 ms — the claim's equality fails because
the code floors the difference to whole seconds first. -/
theorem C9_delay_formula_counterexample :
    ∃ r, (scheduleAlarm nativeEnvAt10 wake1130 []).2 = [r] ∧
      (scheduleAlarm nativeEnvAt10 wake1130 []).1.scheduledTime
        = some (jan1of2024 + 11 * msPerHour + 30 * msPerMinute) ∧
      r.seconds = 5399 ∧
      r.seconds * 1000 ≠
        max 1000 ((jan1of2024 + 11 * msPerHour + 30 * msPerMinute)
                  - nativeEnvAt10.nowAtRegistration) :=
  ⟨_, rfl, rfl, by decide, by decide⟩

/-- C9 (amended): the relative delay registered by a successful native
schedule equals max(1, ⌊(triggerInstant − now)/1000⌋) whole seconds — the
difference is floored to seconds before the one-second clamp — so the
effective delivery instant is always at least now + 1 second, and whenever
the trigger is at least one second away the registered delay undershoots the
exact difference by less than one second. -/
theorem C9_registration_delay (env : NotifEnv) (params : ScheduleAlarmParams) (regs : Regs)
    (hw : env.perm.os ≠ .web)
    (hperm : (requestNotificationPermissions env.perm).granted = true)
    (hreg : env.registerThrows = false)
    (t : Int) (hcalc : calculateNextAlarmTime env.now params.wakeUpTime = some t) :
    ∃ r, alarmsOf (scheduleAlarm env params regs).2 = [r] ∧
      (scheduleAlarm env params regs).1.success = true ∧
      r.seconds = max 1 ((t - env.nowAtRegistration) / 1000) ∧
      1 ≤ r.seconds ∧
      env.nowAtRegistration + 1000 ≤ env.nowAtRegistration + r.seconds * 1000 ∧
      (1000 ≤ t - env.nowAtRegistration →
        r.seconds * 1000 ≤ t - env.nowAtRegistration ∧
        t - env.nowAtRegistration - r.seconds * 1000 < 1000) := by
  rw [scheduleAlarm_success_eq env params regs hw hperm hreg t hcalc]
  refine ⟨_, alarmsOf_upsert _ _ rfl, rfl, rfl, ?_, ?_, ?_⟩
  · exact le_max_left 1 _
  · dsimp only
    have h1 : (1 : Int) ≤ max 1 ((t - env.nowAtRegistration) / 1000) := le_max_left 1 _
    omega
  · intro hd
    dsimp only
    have h2 : (1 : Int) ≤ (t - env.nowAtRegistration) / 1000 := by omega
    rw [max_eq_right h2]
    omega

/-- Witness for the amended C9, at the concrete environment and wake time of
the counterexample. -/
theorem C9_registration_delay_witness :
    ∃ r, alarmsOf (scheduleAlarm nativeEnvAt10 wake1130 []).2 = [r] ∧
      (scheduleAlarm nativeEnvAt10 wake1130 []).1.success = true ∧
      r.seconds = max 1 (((jan1of2024 + 11 * msPerHour + 30 * msPerMinute)
                          - nativeEnvAt10.nowAtRegistration) / 1000) ∧
      1 ≤ r.seconds ∧
      nativeEnvAt10.nowAtRegistration + 1000
        ≤ nativeEnvAt10.nowAtRegistration + r.seconds * 1000 ∧
      (1000 ≤ (jan1of2024 + 11 * msPerHour + 30 * msPerMinute)
                - nativeEnvAt10.nowAtRegistration →
        r.seconds * 1000 ≤ (jan1of2024 + 11 * msPerHour + 30 * msPerMinute)
                            - nativeEnvAt10.nowAtRegistration ∧
        (jan1of2024 + 11 * msPerHour + 30 * msPerMinute)
          - nativeEnvAt10.nowAtRegistration - r.seconds * 1000 < 1000) :=
  C9_registration_delay nativeEnvAt10 wake1130 []
    (by decide) (by decide) (by decide)
    (jan1of2024 + 11 * msPerHour + 30 * msPerMinute) (by decide)

/-- C10: when the notification-sound save yields null while the playback save
succeeds, the orchestrator does not enter Error: it proceeds through
Scheduling to Scheduled, and the registered alarm's sound falls back to the
platform default (`soundFileName || true` with `undefined`). -/
theorem C10_null_sound_save_defaults (audioUrl wakeUpTime : Option String) (name : String)
    (savedPath : Option String) (env : NotifEnv) (sess : SessionState) (regs : Regs)
    (hau : truthyStr audioUrl = true) (hwt : truthyStr wakeUpTime = true)
    (hsp : truthyStr savedPath = true)
    (hw : env.perm.os ≠ .web)
    (hperm : (requestNotificationPermissions env.perm).granted = true)
    (hreg : env.registerThrows = false)
    (t : Int) (hcalc : calculateNextAlarmTime env.now (wakeUpTime.getD "") = some t) :
    (handleScheduleAlarm audioUrl wakeUpTime name savedPath none env sess regs).1.schedulingStatus
        = .scheduled ∧
    (handleScheduleAlarm audioUrl wakeUpTime name savedPath none env sess regs).1.errorMessage
        = none ∧
    ∃ r, alarmsOf (handleScheduleAlarm audioUrl wakeUpTime name savedPath none env sess regs).2
        = [r] ∧ r.content.sound = .defaultSound := by
  have hsched := scheduleAlarm_success_eq env
    { wakeUpTime := wakeUpTime.getD "", name := name, soundFileName := none } regs
    hw hperm hreg t hcalc
  have horch : handleScheduleAlarm audioUrl wakeUpTime name savedPath none env sess regs
      = ({ schedulingStatus := .scheduled, errorMessage := none,
           scheduleResult := some { success := true, error := none, scheduledTime := some t },
           localAudioPath := savedPath },
         scheduleNotificationAsync
           { identifier := ALARM_NOTIFICATION_ID,
             content := { title := "Good Morning!",
                          body := name ++ ", your personalized morning audio is ready.",
                          sound := jsSoundOf none,
                          dataType := "morning-alarm" },
             seconds := max 1 ((t - env.nowAtRegistration) / 1000) }
           (cancelExistingAlarm env regs)) := by
    simp only [handleScheduleAlarm]
    rw [if_neg (by simp [hau]), if_neg (by simp [hwt]), if_neg (by simp [hsp])]
    rw [show (if truthyStr none then none else (none : Option String)) = none from rfl]
    rw [hsched]
    rfl
  rw [horch]
  exact ⟨rfl, rfl, _, alarmsOf_upsert _ _ rfl, rfl⟩

/-- Witness for C10 at a concrete session: playback save succeeded, sound
save returned null, and the alarm is registered with the default sound. -/
theorem C10_null_sound_save_defaults_witness :
    (handleScheduleAlarm (some "https://a/audio.mp3") (some "11:30") "Ada"
        (some "file:///p.mp3") none nativeEnvAt10 ⟨.idle, none, none, none⟩ []).1.schedulingStatus
        = .scheduled ∧
    (handleScheduleAlarm (some "https://a/audio.mp3") (some "11:30") "Ada"
        (some "file:///p.mp3") none nativeEnvAt10 ⟨.idle, none, none, none⟩ []).1.errorMessage
        = none ∧
    ∃ r, alarmsOf (handleScheduleAlarm (some "https://a/audio.mp3") (some "11:30") "Ada"
        (some "file:///p.mp3") none nativeEnvAt10 ⟨.idle, none, none, none⟩ []).2
        = [r] ∧ r.content.sound = .defaultSound :=
  C10_null_sound_save_defaults (some "https://a/audio.mp3") (some "11:30") "Ada"
    (some "file:///p.mp3") nativeEnvAt10 ⟨.idle, none, none, none⟩ []
    (by decide) (by decide) (by decide) (by decide) (by decide) (by decide)
    (jan1of2024 + 11 * msPerHour + 30 * msPerMinute) (by decide)

end MorningApp
